import Mathlib

/-!
# fyne desktop: the X11 window property layer (`wm/property.go`)

A shallow embedding of the property accessors of `wm/property.go` and the
properties of them that the specification states.

Conventions of the embedding:

* A call into the X libraries (`ewmh`, `icccm`, `xprop`, `xgraphics`) that
  returns Go's pair `(value, err)` is represented by a `Read`: `Read.err` when
  `err != nil`, `Read.ok v` when `err == nil` and the value is `v`.
* A function that can stop with a run-time panic returns an `Option`; `none` is
  the panic.
* Machine integers are natural numbers reduced modulo `2 ^ w` at every place
  where the source converts or computes at width `w`.
* The X server is a record of what a read of each property would return,
  together with the list of the write requests sent so far.
-/

namespace Wm

/-! ## Data model -/

/-- Outcome of a library read, Go's `(value, err)`. -/
inductive Read (α : Type) where
  | err : Read α
  | ok : α → Read α
  deriving DecidableEq, Repr

/-- The value half of Go's `(value, err)` when the error is ignored: the
    X libraries return the nil slice together with a non-nil error. -/
def Read.value {α : Type} : Read (List α) → List α
  | .err => []
  | .ok v => v

/-- An X window id (`xproto.Window`). -/
abbrev Window := Nat

/-- Source: `type windowType int`. -/
abbrev windowType := Int

/-! The constant block of `windowType`: `iota` is the index of the line in the
    block, so the fourteen constants are `0, 1, ..., 13`. -/

def windowTypeDesktop : windowType := 0
def windowTypeDock : windowType := 1
def windowTypeToolbar : windowType := 2
def windowTypeMenu : windowType := 3
def windowTypeUtility : windowType := 4
def windowTypeSplash : windowType := 5
def windowTypeDialog : windowType := 6
def windowTypeDropdownMenu : windowType := 7
def windowTypePopupMenu : windowType := 8
def windowTypeTooltip : windowType := 9
def windowTypeNotification : windowType := 10
def windowTypeCombo : windowType := 11
def windowTypeDND : windowType := 12
def windowTypeNormal : windowType := 13

/-- The case labels of the `switch` in `windowTypeGet`, in source order. -/
def typeAtomNames : List String :=
  [ "_NET_WM_WINDOW_TYPE_DESKTOP", "_NET_WM_WINDOW_TYPE_DOCK",
    "_NET_WM_WINDOW_TYPE_TOOLBAR", "_NET_WM_WINDOW_TYPE_MENU",
    "_NET_WM_WINDOW_TYPE_UTILITY", "_NET_WM_WINDOW_TYPE_SPLASH",
    "_NET_WM_WINDOW_TYPE_DIALOG", "_NET_WM_WINDOW_TYPE_DROPDOWN_MENU",
    "_NET_WM_WINDOW_TYPE_POPUP_MENU", "_NET_WM_WINDOW_TYPE_TOOLTIP",
    "_NET_WM_WINDOW_TYPE_NOTIFICATION", "_NET_WM_WINDOW_TYPE_COMBO",
    "_NET_WM_WINDOW_TYPE_DND" ]

/-! ## Window type -/

/-- Source: `windowTypeGet`. The argument is the outcome of
    `ewmh.WmWindowTypeGet(x, win)`. `winType[0]` on an empty slice is Go's
    index-out-of-range panic, here `none`. The `switch` compares the first
    atom with the case labels from top to bottom. -/
def windowTypeGet (winType : Read (List String)) : Option windowType :=
  match winType with
  | .err => some windowTypeNormal
  | .ok winType =>
    match winType with
    | [] => none
    | first :: _ =>
      if first = "_NET_WM_WINDOW_TYPE_DESKTOP" then some windowTypeDesktop
      else if first = "_NET_WM_WINDOW_TYPE_DOCK" then some windowTypeDock
      else if first = "_NET_WM_WINDOW_TYPE_TOOLBAR" then some windowTypeToolbar
      else if first = "_NET_WM_WINDOW_TYPE_MENU" then some windowTypeMenu
      else if first = "_NET_WM_WINDOW_TYPE_UTILITY" then some windowTypeUtility
      else if first = "_NET_WM_WINDOW_TYPE_SPLASH" then some windowTypeSplash
      else if first = "_NET_WM_WINDOW_TYPE_DIALOG" then some windowTypeDialog
      else if first = "_NET_WM_WINDOW_TYPE_DROPDOWN_MENU" then some windowTypeDropdownMenu
      else if first = "_NET_WM_WINDOW_TYPE_POPUP_MENU" then some windowTypePopupMenu
      else if first = "_NET_WM_WINDOW_TYPE_TOOLTIP" then some windowTypeTooltip
      else if first = "_NET_WM_WINDOW_TYPE_NOTIFICATION" then some windowTypeNotification
      else if first = "_NET_WM_WINDOW_TYPE_COMBO" then some windowTypeNotification
      else if first = "_NET_WM_WINDOW_TYPE_DND" then some windowTypeDND
      else some windowTypeNormal

/-! ## Name, class and icon name -/

/-- Source: `windowName`. `ewmhName` is the outcome of `ewmh.WmNameGet`
    (the extended convention, `_NET_WM_NAME`), `icccmName` that of
    `icccm.WmNameGet` (the legacy convention, `WM_NAME`), which is consulted
    only after the first has failed. -/
def windowName (ewmhName icccmName : Read String) : String :=
  match ewmhName with
  | .ok name => name
  | .err =>
    match icccmName with
    | .ok name => name
    | .err => ""

/-- Source: `windowIconName`. `icccmIcon` is the outcome of
    `icccm.WmIconNameGet` (legacy), `ewmhIcon` that of `ewmh.WmIconNameGet`
    (extended), consulted only after the first has failed. -/
def windowIconName (icccmIcon ewmhIcon : Read String) : String :=
  match icccmIcon with
  | .ok icon => icon
  | .err =>
    match ewmhIcon with
    | .ok icon => icon
    | .err => ""

/-- Source: `windowClass`. `wmClass` is the outcome of reading `WM_CLASS`
    through `xprop.PropValStrs`, `netWmClass` that of reading `_NET_WM_CLASS`,
    consulted only after the first has failed. -/
def windowClass (wmClass netWmClass : Read (List String)) : List String :=
  match wmClass with
  | .ok cls => cls
  | .err =>
    match netWmClass with
    | .ok cls => cls
    | .err => [""]

/-! ## Icon background colour -/

/-- Go's `color.RGBA`: four `uint8` channels. -/
structure RGBA where
  R : Nat
  G : Nat
  B : Nat
  A : Nat
  deriving DecidableEq, Repr

/-- Source: `windowIcon`. `findIcon` is the outcome of `xgraphics.FindIcon`;
    `background` is the quadruple `(r, g, b, a)` that
    `theme.BackgroundColor().RGBA()` returns (each a `uint32`);
    `BlendBgColor` and `WritePng` are the two `xgraphics` calls, the second
    giving the bytes it has put into the buffer (an error of it is only
    logged). The result is the returned buffer together with the colour handed
    to `BlendBgColor`, `none` when the blend step is not reached.
    The source binds the quadruple to the names `red, blue, green, _` in this
    order. -/
def windowIcon {Image : Type} (findIcon : Read Image) (background : Nat × Nat × Nat × Nat)
    (BlendBgColor : Image → RGBA → Image) (WritePng : Image → List Nat) :
    List Nat × Option RGBA :=
  match findIcon with
  | .err => ([], none)
  | .ok img =>
    match background with
    | (red, blue, green, _) =>
      let col : RGBA := { R := red % 256, G := green % 256, B := blue % 256, A := 0 % 256 }
      (WritePng (BlendBgColor img col), some col)

/-! ## Size increments -/

/-- A finite, non-negative binary64 value, kept as the exact fraction
    `num / den`. The values of `windowSizeWithIncrement` are finite and
    non-negative, and lie in the normal range (between `2 ^ (-64)` and
    `2 ^ 17`), so signs, subnormals, infinities and NaN are not represented. -/
structure float64 where
  num : Nat
  den : Nat
  deriving DecidableEq, Repr

/-- Scaling by powers of two for `float64.nearest`: doubles `N` while
    `N / D < 2 ^ 52` and doubles `D` while `N / D ≥ 2 ^ 53`, keeping in
    `up / down` the power of two by which the scaled fraction has to be
    multiplied to give the original one. The first argument bounds the number
    of doublings; binary64 exponents need fewer than 2200. -/
def float64.scale : Nat → Nat → Nat → Nat → Nat → Nat × Nat × Nat × Nat
  | 0, N, D, up, down => (N, D, up, down)
  | fuel + 1, N, D, up, down =>
    if N < D * 2 ^ 52 then float64.scale fuel (2 * N) D up (2 * down)
    else if D * 2 ^ 53 ≤ N then float64.scale fuel N (2 * D) (2 * up) down
    else (N, D, up, down)

/-- The binary64 nearest to the fraction `n / d`: 53 significant bits, round
    to nearest, ties to even (IEEE 754 default rounding, which Go uses). The
    fraction is scaled into `[2 ^ 52, 2 ^ 53)`, rounded to an integer `m` there,
    and scaled back. A zero `d` does not occur under the guards of the caller;
    the value given for it is a placeholder. -/
def float64.nearest (n d : Nat) : float64 :=
  if n = 0 ∨ d = 0 then ⟨0, 1⟩
  else
    match float64.scale 2200 n d 1 1 with
    | (N, D, up, down) =>
      let m := N / D
      let r := N % D
      let m := if 2 * r > D ∨ (2 * r = D ∧ m % 2 = 1) then m + 1 else m
      ⟨m * up, down⟩

/-- Go's conversion `float64(n)` of an unsigned integer. -/
def float64.ofNat (n : Nat) : float64 := float64.nearest n 1

/-- Go's `a / b` on `float64`. -/
def float64.div (a b : float64) : float64 :=
  float64.nearest (a.num * b.den) (a.den * b.num)

/-- Go's `a * b` on `float64`. -/
def float64.mul (a b : float64) : float64 :=
  float64.nearest (a.num * b.num) (a.den * b.den)

/-- Go's `math.Round`: the nearest integer, halves away from zero; on a
    non-negative value this is `floor (x + 1/2)`. -/
def math.Round (x : float64) : float64 :=
  ⟨(2 * x.num + x.den) / (2 * x.den), 1⟩

/-- Go's conversion `uint16(x)` of a `float64`: the fraction is discarded and
    the integer is kept at 16 bits. -/
def float64.toUint16 (x : float64) : Nat := (x.num / x.den) % 65536

/-- The fields of `icccm.NormalHints` that `windowSizeWithIncrement` reads,
    each a Go `uint`. -/
structure NormalHints where
  Flags : Nat
  MinWidth : Nat
  MinHeight : Nat
  BaseWidth : Nat
  BaseHeight : Nat
  WidthInc : Nat
  HeightInc : Nat
  deriving DecidableEq, Repr

/-- The library constant `icccm.SizeHintPResizeInc`, the seventh flag of the
    size hints (`1 << 6`). -/
def SizeHintPResizeInc : Nat := 64

/-- Source: `windowSizeWithIncrement`. `hints` is the outcome of
    `icccm.WmNormalHintsGet`; `width` and `height` are `uint16`. The
    subtraction `width - baseWidth` is a `uint16` subtraction (it wraps), the
    conversions `uint16(nh.BaseWidth)` keep the low 16 bits, and `math.Round`
    is applied to the product `(diff / inc) * inc`, as the source
    parenthesises it. -/
def windowSizeWithIncrement (hints : Read NormalHints) (width height : Nat) : Nat × Nat :=
  match hints with
  | .err => (width, height)
  | .ok nh =>
    if (nh.Flags &&& SizeHintPResizeInc) > 0 then
      let baseWidth := if nh.BaseWidth > 0 then nh.BaseWidth % 65536 else nh.MinWidth % 65536
      let baseHeight := if nh.BaseHeight > 0 then nh.BaseHeight % 65536 else nh.MinHeight % 65536
      let width :=
        if nh.WidthInc > 0 then
          (baseWidth + (math.Round (float64.mul
            (float64.div (float64.ofNat ((width + 65536 - baseWidth) % 65536))
              (float64.ofNat nh.WidthInc))
            (float64.ofNat nh.WidthInc))).toUint16) % 65536
        else width
      let height :=
        if nh.HeightInc > 0 then
          (baseHeight + (math.Round (float64.mul
            (float64.div (float64.ofNat ((height + 65536 - baseHeight) % 65536))
              (float64.ofNat nh.HeightInc))
            (float64.ofNat nh.HeightInc))).toUint16) % 65536
        else height
      (width, height)
    else (width, height)

/-- What the specification asks of one axis: `base + round((requested - base)
    / increment) * increment` with the difference signed and the quotient
    rounded to the nearest integer, halves away from zero (`increment > 0`). -/
def specAdjust (base increment requested : Nat) : Int :=
  let diff : Int := (requested : Int) - (base : Int)
  let q : Int :=
    if 0 ≤ diff then (2 * diff + increment) / (2 * increment)
    else -((2 * (-diff) + increment) / (2 * increment))
  base + q * increment

/-! ## The X server: extended hints and client lists -/

/-- A write request sent to the X server. -/
inductive Request where
  | wmStateSet (win : Window) (atoms : List String)
  | clientListSet (wins : List Window)
  | clientListStackingSet (wins : List Window)
  deriving DecidableEq, Repr

/-- The connection `*xgbutil.XUtil` with the server state behind it: what a
    read of `_NET_WM_STATE` of each window returns, what a read of the two
    client-list properties of the root window returns, and the write requests
    sent so far, oldest first. -/
structure XUtil where
  wmState : Window → Read (List String)
  clientList : Read (List Window)
  clientListStacking : Read (List Window)
  sent : List Request

/-- Library call `ewmh.WmStateGet`. -/
def WmStateGet (x : XUtil) (win : Window) : Read (List String) := x.wmState win

/-- Library call `ewmh.WmStateSet`: replaces the property of `win`. -/
def WmStateSet (x : XUtil) (win : Window) (atoms : List String) : XUtil :=
  { x with
    wmState := fun w => if w = win then .ok atoms else x.wmState w
    sent := x.sent ++ [.wmStateSet win atoms] }

/-- Library call `ewmh.ClientListSet`: replaces `_NET_CLIENT_LIST`. -/
def ClientListSet (x : XUtil) (wins : List Window) : XUtil :=
  { x with clientList := .ok wins, sent := x.sent ++ [.clientListSet wins] }

/-- Library call `ewmh.ClientListStackingSet`: replaces
    `_NET_CLIENT_LIST_STACKING`. -/
def ClientListStackingSet (x : XUtil) (wins : List Window) : XUtil :=
  { x with clientListStacking := .ok wins, sent := x.sent ++ [.clientListStackingSet wins] }

/-- Source: `windowExtendedHintsGet`. -/
def windowExtendedHintsGet (x : XUtil) (win : Window) : List String :=
  match WmStateGet x win with
  | .err => []
  | .ok extendedHints => extendedHints

/-- Source: `windowExtendedHintsAdd`. The error of the read is ignored and the
    value (nil on an error) is appended to. -/
def windowExtendedHintsAdd (x : XUtil) (win : Window) (hint : String) : XUtil :=
  let extendedHints := (WmStateGet x win).value
  let extendedHints := extendedHints ++ [hint]
  WmStateSet x win extendedHints

/-- The `for i, curHint := range extendedHints` loop of
    `windowExtendedHintsRemove`, from index `i` on, `remaining` being the
    elements from index `i`. At the first `curHint == hint` the result is the
    slice `append(extendedHints[:i], extendedHints[i+1:]...)` that is written;
    `none` when the loop ends without a match. -/
def windowExtendedHintsRemove.loop (extendedHints : List String) (hint : String) :
    Nat → List String → Option (List String)
  | _, [] => none
  | i, curHint :: remaining =>
    if curHint = hint then some (extendedHints.take i ++ extendedHints.drop (i + 1))
    else windowExtendedHintsRemove.loop extendedHints hint (i + 1) remaining

/-- Source: `windowExtendedHintsRemove`. -/
def windowExtendedHintsRemove (x : XUtil) (win : Window) (hint : String) : XUtil :=
  match WmStateGet x win with
  | .err => x
  | .ok extendedHints =>
    match windowExtendedHintsRemove.loop extendedHints hint 0 extendedHints with
    | some written => WmStateSet x win written
    | none => x

/-- Modelled from the spec: the element type of the two in-memory lists is
    declared outside `src/`. The spec's ClientLists are ordered sequences of
    windows, so a client is represented by the window it stands for. -/
structure Client where
  win : Window
  deriving DecidableEq, Repr

/-- Modelled from the spec: the struct `x11WM` is declared outside `src/`;
    the fields are the ones `property.go` uses: the connection `x` and the two
    in-memory lists `clients` and `mappingOrder` of the spec's ClientLists. -/
structure x11WM where
  x : XUtil
  clients : List Client
  mappingOrder : List Client

/-- Modelled from the spec: the method `getWindowsFromClients` is declared
    outside `src/`; the publish operations write the property "from the given
    ordered sequence", so it yields the windows of the given clients in the
    order of the list. -/
def x11WM.getWindowsFromClients (_wm : x11WM) (clients : List Client) : List Window :=
  clients.map Client.win

/-- Source: `windowClientListUpdate`. -/
def windowClientListUpdate (wm : x11WM) : x11WM :=
  { wm with x := ClientListSet wm.x (wm.getWindowsFromClients wm.mappingOrder) }

/-- Source: `windowClientListStackingUpdate`. -/
def windowClientListStackingUpdate (wm : x11WM) : x11WM :=
  { wm with x := ClientListStackingSet wm.x (wm.getWindowsFromClients wm.clients) }

/-- A server on which no property is set and to which nothing has been sent. -/
def XUtil.blank : XUtil :=
  { wmState := fun _ => .err, clientList := .err, clientListStacking := .err, sent := [] }

/-! ## Concrete inputs used in the evaluations below -/

/-- The values `windowTypeGet` can return on a non-empty atom list: the
    right-hand sides of the `switch`, in source order. -/
def returnedTypes : List (Option windowType) :=
  [ some windowTypeDesktop, some windowTypeDock, some windowTypeToolbar, some windowTypeMenu,
    some windowTypeUtility, some windowTypeSplash, some windowTypeDialog,
    some windowTypeDropdownMenu, some windowTypePopupMenu, some windowTypeTooltip,
    some windowTypeNotification, some windowTypeNotification, some windowTypeDND,
    some windowTypeNormal ]

/-- Size hints of the specification's example: the resize-increment flag set,
    `baseWidth = 0`, `minWidth = 100`, `widthIncrement = 10`; no height
    increment. -/
def exampleHints : NormalHints :=
  { Flags := 64, MinWidth := 100, MinHeight := 0, BaseWidth := 0, BaseHeight := 0,
    WidthInc := 10, HeightInc := 0 }

/-- A window manager whose two in-memory lists hold the same two windows in
    different orders. -/
def exampleWM : x11WM :=
  { x := XUtil.blank, clients := [⟨1⟩, ⟨2⟩], mappingOrder := [⟨2⟩, ⟨1⟩] }

/-- A server on which window 7 carries the extended hints `b, a, c, a`. -/
def exampleServer : XUtil := WmStateSet XUtil.blank 7 ["b", "a", "c", "a"]

/-! ## Theorems -/

/-! ### Helper lemmas -/

theorem ite_mem_of_mem {α : Type} (c : Prop) [Decidable c] (x y : α) (l : List α)
    (hx : x ∈ l) (hy : y ∈ l) : (if c then x else y) ∈ l := by
  by_cases h : c
  · rw [if_pos h]; exact hx
  · rw [if_neg h]; exact hy

theorem windowTypeGet_cons_mem (a : String) (rest : List String) :
    windowTypeGet (.ok (a :: rest)) ∈ returnedTypes := by
  unfold windowTypeGet
  dsimp only
  repeat (first | apply ite_mem_of_mem | decide)

theorem loop_none_of_not_mem (hs : List String) (hint : String) :
    ∀ (remaining : List String) (i : Nat), hint ∉ remaining →
      windowExtendedHintsRemove.loop hs hint i remaining = none := by
  intro remaining
  induction remaining with
  | nil => intro i _; rfl
  | cons c rem ih =>
    intro i h
    have hc : c ≠ hint := fun e => h (by rw [e]; exact List.mem_cons_self _ _)
    have hr : hint ∉ rem := fun m => h (List.mem_cons_of_mem _ m)
    rw [windowExtendedHintsRemove.loop, if_neg hc]
    exact ih (i + 1) hr

theorem loop_some_of_first (hs : List String) (hint : String) (post : List String) :
    ∀ (pre : List String) (i : Nat), hint ∉ pre →
      windowExtendedHintsRemove.loop hs hint i (pre ++ hint :: post) =
        some (hs.take (i + pre.length) ++ hs.drop (i + pre.length + 1)) := by
  intro pre
  induction pre with
  | nil =>
    intro i _
    rw [List.nil_append, windowExtendedHintsRemove.loop, if_pos rfl]
    rfl
  | cons c pre ih =>
    intro i h
    have hc : c ≠ hint := fun e => h (by rw [e]; exact List.mem_cons_self _ _)
    have hr : hint ∉ pre := fun m => h (List.mem_cons_of_mem _ m)
    rw [List.cons_append, windowExtendedHintsRemove.loop, if_neg hc, ih (i + 1) hr]
    have e : i + 1 + pre.length = i + (c :: pre).length := by
      rw [List.length_cons]; omega
    rw [e]

theorem take_drop_first (pre post : List String) (hint : String) :
    (pre ++ hint :: post).take (0 + pre.length) ++
      (pre ++ hint :: post).drop (0 + pre.length + 1) = pre ++ post := by
  rw [Nat.zero_add]
  have h1 : (pre ++ hint :: post).take pre.length = pre := by simp
  have h2 : (pre ++ hint :: post).drop (pre.length + 1) = post := by simp
  rw [h1, h2]

theorem remove_of_first (x : XUtil) (win : Window) (hint : String) (pre post : List String)
    (hS : WmStateGet x win = .ok (pre ++ hint :: post)) (hpre : hint ∉ pre) :
    windowExtendedHintsRemove x win hint = WmStateSet x win (pre ++ post) := by
  unfold windowExtendedHintsRemove
  rw [hS]
  dsimp only
  rw [loop_some_of_first (pre ++ hint :: post) hint post pre 0 hpre, take_drop_first]

theorem remove_of_not_mem (x : XUtil) (win : Window) (hint : String) (S : List String)
    (hS : WmStateGet x win = .ok S) (hmem : hint ∉ S) :
    windowExtendedHintsRemove x win hint = x := by
  unfold windowExtendedHintsRemove
  rw [hS]
  dsimp only
  rw [loop_none_of_not_mem S hint S 0 hmem]

/-! ### Size increments -/

set_option maxRecDepth 100000 in
/-- C1 (the code at the failing input): with the resize-increment flag set,
    `baseWidth = 0`, `minWidth = 100` and `widthIncrement = 10`,
    `windowSizeWithIncrement` returns the requested width 106 as 106 and 104 as
    104, where the specified formula gives 110 and 100. -/
theorem windowSizeWithIncrement_keeps_106 :
    windowSizeWithIncrement (.ok exampleHints) 106 50 = (106, 50) ∧
    windowSizeWithIncrement (.ok exampleHints) 104 50 = (104, 50) ∧
    specAdjust 100 10 106 = 110 ∧ specAdjust 100 10 104 = 100 := by
  decide

/-! ### Client lists -/

/-- C2 (counterexample): with `clients = [1, 2]` and `mappingOrder = [2, 1]`,
    it is not the case that `windowClientListUpdate` leaves the client-list
    property equal to the windows of `clients` and
    `windowClientListStackingUpdate` leaves the stacking property equal to the
    windows of `mappingOrder`. -/
theorem clientList_not_from_clients :
    ¬ ((windowClientListUpdate exampleWM).x.clientList =
          .ok (exampleWM.getWindowsFromClients exampleWM.clients) ∧
       (windowClientListStackingUpdate exampleWM).x.clientListStacking =
          .ok (exampleWM.getWindowsFromClients exampleWM.mappingOrder)) := by
  decide

/-- C2 (amended): for every window-manager state, after
    `windowClientListUpdate` the client-list property equals, in the same
    order, the windows of the in-memory `mappingOrder` list, and after
    `windowClientListStackingUpdate` the client-list-stacking property equals,
    in the same order, the windows of the in-memory `clients` list; neither
    operation changes the in-memory lists. -/
theorem clientList_published_from_mappingOrder (wm : x11WM) :
    (windowClientListUpdate wm).x.clientList = .ok (wm.mappingOrder.map Client.win) ∧
    (windowClientListStackingUpdate wm).x.clientListStacking = .ok (wm.clients.map Client.win) ∧
    (windowClientListUpdate wm).clients = wm.clients ∧
    (windowClientListUpdate wm).mappingOrder = wm.mappingOrder ∧
    (windowClientListStackingUpdate wm).clients = wm.clients ∧
    (windowClientListStackingUpdate wm).mappingOrder = wm.mappingOrder :=
  ⟨rfl, rfl, rfl, rfl, rfl, rfl⟩

/-! ### Window type -/

/-- C3 (the code at the failing input): a successfully read atom list whose
    first element is `_NET_WM_WINDOW_TYPE_COMBO` classifies as
    `windowTypeNotification`, which is not `windowTypeCombo`, the same value as
    for `_NET_WM_WINDOW_TYPE_NOTIFICATION`; and no outcome of the read at all
    classifies as `windowTypeCombo`. -/
theorem windowTypeGet_combo_is_notification :
    windowTypeGet (.ok ["_NET_WM_WINDOW_TYPE_COMBO"]) = some windowTypeNotification ∧
    windowTypeGet (.ok ["_NET_WM_WINDOW_TYPE_NOTIFICATION"]) = some windowTypeNotification ∧
    windowTypeNotification ≠ windowTypeCombo ∧
    ∀ r : Read (List String), windowTypeGet r ≠ some windowTypeCombo := by
  refine ⟨by decide, by decide, by decide, ?_⟩
  intro r
  rcases r with _ | l
  · decide
  · rcases l with _ | ⟨a, rest⟩
    · decide
    · intro h
      have hm := windowTypeGet_cons_mem a rest
      rw [h] at hm
      revert hm
      decide

/-- C4 (the code at the failing input): when the read succeeds with an empty
    atom list, `windowTypeGet` indexes element 0 of an empty slice and panics;
    it does not return `windowTypeNormal`. -/
theorem windowTypeGet_empty_panics :
    windowTypeGet (.ok []) = none ∧ windowTypeGet (.ok []) ≠ some windowTypeNormal := by
  decide

/-- C5: for every non-empty atom list `a :: rest`, `windowTypeGet` returns for
    `a :: rest` what it returns for `[a]`, it returns a value (no panic), it
    returns `windowTypeNormal` when `a` is none of the thirteen case labels,
    and a failed read yields `windowTypeNormal`. -/
theorem windowTypeGet_first_atom_only (a : String) (rest : List String) :
    windowTypeGet (.ok (a :: rest)) = windowTypeGet (.ok [a]) ∧
    (windowTypeGet (.ok (a :: rest))).isSome = true ∧
    (a ∉ typeAtomNames → windowTypeGet (.ok (a :: rest)) = some windowTypeNormal) ∧
    windowTypeGet .err = some windowTypeNormal := by
  refine ⟨rfl, ?_, ?_, rfl⟩
  · have hm := windowTypeGet_cons_mem a rest
    generalize windowTypeGet (.ok (a :: rest)) = v at hm
    revert v
    decide
  · intro h
    have h1 : a ≠ "_NET_WM_WINDOW_TYPE_DESKTOP" := fun e => h (by rw [e]; decide)
    have h2 : a ≠ "_NET_WM_WINDOW_TYPE_DOCK" := fun e => h (by rw [e]; decide)
    have h3 : a ≠ "_NET_WM_WINDOW_TYPE_TOOLBAR" := fun e => h (by rw [e]; decide)
    have h4 : a ≠ "_NET_WM_WINDOW_TYPE_MENU" := fun e => h (by rw [e]; decide)
    have h5 : a ≠ "_NET_WM_WINDOW_TYPE_UTILITY" := fun e => h (by rw [e]; decide)
    have h6 : a ≠ "_NET_WM_WINDOW_TYPE_SPLASH" := fun e => h (by rw [e]; decide)
    have h7 : a ≠ "_NET_WM_WINDOW_TYPE_DIALOG" := fun e => h (by rw [e]; decide)
    have h8 : a ≠ "_NET_WM_WINDOW_TYPE_DROPDOWN_MENU" := fun e => h (by rw [e]; decide)
    have h9 : a ≠ "_NET_WM_WINDOW_TYPE_POPUP_MENU" := fun e => h (by rw [e]; decide)
    have h10 : a ≠ "_NET_WM_WINDOW_TYPE_TOOLTIP" := fun e => h (by rw [e]; decide)
    have h11 : a ≠ "_NET_WM_WINDOW_TYPE_NOTIFICATION" := fun e => h (by rw [e]; decide)
    have h12 : a ≠ "_NET_WM_WINDOW_TYPE_COMBO" := fun e => h (by rw [e]; decide)
    have h13 : a ≠ "_NET_WM_WINDOW_TYPE_DND" := fun e => h (by rw [e]; decide)
    unfold windowTypeGet
    dsimp only
    rw [if_neg h1, if_neg h2, if_neg h3, if_neg h4, if_neg h5, if_neg h6, if_neg h7,
      if_neg h8, if_neg h9, if_neg h10, if_neg h11, if_neg h12, if_neg h13]

/-- Witness for C5 at the list `["_UNKNOWN", "_NET_WM_WINDOW_TYPE_DIALOG"]`. -/
theorem windowTypeGet_first_atom_only_witness :
    "_UNKNOWN" ∉ typeAtomNames ∧
    windowTypeGet (.ok ["_UNKNOWN", "_NET_WM_WINDOW_TYPE_DIALOG"]) = some windowTypeNormal :=
  ⟨by decide,
   (windowTypeGet_first_atom_only "_UNKNOWN" ["_NET_WM_WINDOW_TYPE_DIALOG"]).2.2.1 (by decide)⟩

/-! ### Extended hints -/

/-- C6: for every hint `h` and every stored extended-hint sequence `S` of a
    window that does not contain `h`, `windowExtendedHintsAdd` of `h` followed
    by `windowExtendedHintsRemove` of `h` leaves the extended-state property of
    the window equal to `S` (same elements, same order), and leaves the
    property of every other window as it was. -/
theorem add_then_remove_restores (x : XUtil) (win : Window) (h : String) (S : List String)
    (hS : WmStateGet x win = .ok S) (hh : h ∉ S) :
    WmStateGet (windowExtendedHintsRemove (windowExtendedHintsAdd x win h) win h) win = .ok S ∧
    ∀ w, w ≠ win →
      WmStateGet (windowExtendedHintsRemove (windowExtendedHintsAdd x win h) win h) w =
        WmStateGet x w := by
  have hadd : windowExtendedHintsAdd x win h = WmStateSet x win (S ++ [h]) := by
    unfold windowExtendedHintsAdd
    rw [hS]
    rfl
  have hread : WmStateGet (WmStateSet x win (S ++ [h])) win = .ok (S ++ h :: []) := by
    simp [WmStateGet, WmStateSet]
  rw [hadd, remove_of_first _ win h S [] hread hh, List.append_nil]
  constructor
  · simp [WmStateGet, WmStateSet]
  · intro w hw
    simp [WmStateGet, WmStateSet, hw]

/-- Witness for C6: window 7 carries `b, a, c, a`; the hint `d` is added and
    removed. -/
theorem add_then_remove_restores_witness :
    WmStateGet (windowExtendedHintsRemove (windowExtendedHintsAdd exampleServer 7 "d") 7 "d") 7 =
      .ok ["b", "a", "c", "a"] :=
  (add_then_remove_restores exampleServer 7 "d" ["b", "a", "c", "a"] (by decide) (by decide)).1

/-- C7: when the stored sequence `S` of the window contains `hint`,
    `windowExtendedHintsRemove` performs exactly one write, of `S` with its
    first occurrence of `hint` deleted (`S = pre ++ hint :: post` with `hint`
    not in `pre`, and `pre ++ post` is written); when the read fails, or `hint`
    does not occur in `S`, the server is left as it was, with no write sent. -/
theorem windowExtendedHintsRemove_first_only (x : XUtil) (win : Window) (hint : String) :
    (∀ S, WmStateGet x win = .ok S → hint ∈ S →
      ∃ pre post, S = pre ++ hint :: post ∧ hint ∉ pre ∧
        windowExtendedHintsRemove x win hint = WmStateSet x win (pre ++ post)) ∧
    (WmStateGet x win = .err → windowExtendedHintsRemove x win hint = x) ∧
    (∀ S, WmStateGet x win = .ok S → hint ∉ S → windowExtendedHintsRemove x win hint = x) := by
  refine ⟨?_, ?_, ?_⟩
  · intro S hS hmem
    obtain ⟨pre, post, hpre, hsplit, _⟩ := List.exists_erase_eq hmem
    subst hsplit
    exact ⟨pre, post, rfl, hpre, remove_of_first x win hint pre post hS hpre⟩
  · intro herr
    unfold windowExtendedHintsRemove
    rw [herr]
  · intro S hS hmem
    exact remove_of_not_mem x win hint S hS hmem

/-- Witness for C7: window 7 carries `b, a, c, a` and `a` is removed. -/
theorem windowExtendedHintsRemove_first_only_witness :
    ∃ pre post, ["b", "a", "c", "a"] = pre ++ "a" :: post ∧ "a" ∉ pre ∧
      windowExtendedHintsRemove exampleServer 7 "a" = WmStateSet exampleServer 7 (pre ++ post) :=
  (windowExtendedHintsRemove_first_only exampleServer 7 "a").1 ["b", "a", "c", "a"]
    (by decide) (by decide)

/-! ### Class, name and icon name -/

/-- C8 (the code at the failing input): when the `WM_CLASS` read succeeds with
    an empty sequence, or fails while the `_NET_WM_CLASS` read succeeds with an
    empty sequence, `windowClass` returns the empty sequence, which has no
    element 0; when both reads fail it returns `[""]`. -/
theorem windowClass_empty_read :
    (∀ r, windowClass (.ok []) r = []) ∧
    windowClass .err (.ok []) = [] ∧
    (windowClass (.ok []) .err)[0]? = none ∧
    windowClass .err .err = [""] :=
  ⟨fun _ => rfl, rfl, rfl, rfl⟩

/-- C9 (counterexample): the empty string is not returned only when both reads
    fail. With the extended name read successfully as the empty string and the
    legacy name as `old`, `windowName` returns the empty string although
    neither read has failed; likewise `windowIconName` with the legacy icon
    name read as the empty string and the extended one as `new`. -/
theorem windowName_empty_without_failed_read :
    ¬ (windowName (.ok "") (.ok "old") = "" →
        (Read.ok "" : Read String) = .err ∧ (Read.ok "old" : Read String) = .err) ∧
    ¬ (windowIconName (.ok "") (.ok "new") = "" →
        (Read.ok "" : Read String) = .err ∧ (Read.ok "new" : Read String) = .err) := by
  decide

/-- C9 (amended): `windowName` returns the extended-convention value whenever
    that read succeeds (whatever the legacy read gives, so also when both are
    readable and differ), the legacy value when the extended read fails and the
    legacy one succeeds, and the empty string when both fail; `windowIconName`
    returns the legacy value whenever that read succeeds, the extended value
    when the legacy read fails and the extended one succeeds, and the empty
    string when both fail. For every outcome of the two reads, the result of
    either accessor is the empty string exactly when both reads fail or the
    read whose value it returns (the preferred one if it succeeds, else the
    other) gave the empty string. -/
theorem windowName_windowIconName_choice (extended legacy : String) :
    (∀ r, windowName (.ok extended) r = extended) ∧
    windowName .err (.ok legacy) = legacy ∧
    windowName .err .err = "" ∧
    (∀ r, windowIconName (.ok legacy) r = legacy) ∧
    windowIconName .err (.ok extended) = extended ∧
    windowIconName .err .err = "" ∧
    (extended ≠ legacy →
      windowName (.ok extended) (.ok legacy) ≠ legacy ∧
      windowIconName (.ok legacy) (.ok extended) ≠ extended) ∧
    (∀ ewmhName icccmName : Read String,
      windowName ewmhName icccmName = "" ↔
        (ewmhName = .err ∧ icccmName = .err) ∨ ewmhName = .ok "" ∨
        (ewmhName = .err ∧ icccmName = .ok "")) ∧
    (∀ icccmIcon ewmhIcon : Read String,
      windowIconName icccmIcon ewmhIcon = "" ↔
        (icccmIcon = .err ∧ ewmhIcon = .err) ∨ icccmIcon = .ok "" ∨
        (icccmIcon = .err ∧ ewmhIcon = .ok "")) := by
  refine ⟨fun _ => rfl, rfl, rfl, fun _ => rfl, rfl, rfl,
    fun h => ⟨h, fun e => h e.symm⟩, ?_, ?_⟩
  · intro a b
    rcases a with _ | a <;> rcases b with _ | b <;> simp [windowName]
  · intro a b
    rcases a with _ | a <;> rcases b with _ | b <;> simp [windowIconName]

/-- Witness for C9 at the extended value `new` and the legacy value `old`. -/
theorem windowName_windowIconName_choice_witness :
    windowName (.ok "new") (.ok "old") ≠ "old" ∧
    windowIconName (.ok "old") (.ok "new") ≠ "new" :=
  (windowName_windowIconName_choice "new" "old").2.2.2.2.2.2.1 (by decide)

/-! ### Icon background colour -/

/-- C10 (the code at the failing input): for a background colour with
    components `(r, g, b)`, the colour `windowIcon` hands to the blend step has
    red `r mod 256`, green `b mod 256`, blue `g mod 256` and alpha 0; for
    `(1, 2, 3)` the green channel is 3 and the blue channel is 2. -/
theorem windowIcon_green_blue_exchanged :
    (∀ (r g b a : Nat) (blend : Unit → RGBA → Unit) (png : Unit → List Nat),
      (windowIcon (.ok ()) (r, g, b, a) blend png).2 =
        some { R := r % 256, G := b % 256, B := g % 256, A := 0 }) ∧
    (windowIcon (.ok ()) (1, 2, 3, 65535) (fun i _ => i) (fun _ => [])).2 =
      some { R := 1, G := 3, B := 2, A := 0 } ∧
    (windowIcon (.ok ()) (1, 2, 3, 65535) (fun i _ => i) (fun _ => [])).2 ≠
      some { R := 1, G := 2, B := 3, A := 0 } := by
  refine ⟨fun _ _ _ _ _ _ => rfl, by decide, by decide⟩

end Wm
